import Mathlib

/-!
Shallow embedding of the tracking-session core of the AccessNature repository.

The repository ships two UI front ends over the same controllers:
* `AccessibleTrackingInterface` in `src/src/main.js` (namespace `Main` below);
* `EnhancedTrackingInterface` in `src/unnamed/part_000` (namespace `Enhanced` below).

Both own a session state machine in the string field `this.state`
(values `'idle'`, `'tracking'`, `'paused'`) driven by click handlers.
Calls into the underlying controllers (`tracking.start()`,
`tracking.togglePause()`, `tracking.stop()`, `state.restoreFromBackup(...)`)
are modelled by an input of type `Except Unit Bool`:
`.error ()` means the call threw, `.ok b` means it returned the value `b`.
JavaScript `try/catch` blocks become total functions whose branches follow
the `catch` handlers of the source.
-/

/-- Result of running one click handler: the interface state afterwards and
how many times each underlying tracking-controller operation was invoked. -/
structure HandlerResult where
  state : String
  startCalls : Nat
  toggleCalls : Nat
  stopCalls : Nat
  deriving Repr, DecidableEq

namespace Main

/-- `AccessibleTrackingInterface.handleStartClick` (src/src/main.js:246-263).
In `'idle'` it awaits `tracking.start()` and then unconditionally sets
`this.state = 'tracking'` (the returned value is ignored; only a thrown
error, landing in the `catch`, leaves the state untouched).  In `'paused'`
it calls `tracking.togglePause()` and sets `'tracking'`.  Any other state:
no branch taken, nothing happens. -/
def handleStartClick (s : String) (res : Except Unit Bool) : HandlerResult :=
  if s = "idle" then
    match res with
    | .error _ => ⟨s, 1, 0, 0⟩
    | .ok _ => ⟨"tracking", 1, 0, 0⟩
  else if s = "paused" then
    match res with
    | .error _ => ⟨s, 0, 1, 0⟩
    | .ok _ => ⟨"tracking", 0, 1, 0⟩
  else ⟨s, 0, 0, 0⟩

/-- `AccessibleTrackingInterface.handlePauseClick` (src/src/main.js:265-272):
only acts in `'tracking'`, calling `togglePause()` then setting `'paused'`.
There is no `try/catch`, so a throwing `togglePause` aborts before the
assignment. -/
def handlePauseClick (s : String) (res : Except Unit Bool) : HandlerResult :=
  if s = "tracking" then
    match res with
    | .error _ => ⟨s, 0, 1, 0⟩
    | .ok _ => ⟨"paused", 0, 1, 0⟩
  else ⟨s, 0, 0, 0⟩

/-- `AccessibleTrackingInterface.handleStopClick` (src/src/main.js:274-281):
acts in `'tracking'` or `'paused'`, calling `tracking.stop()` then setting
`'idle'`; otherwise nothing happens. -/
def handleStopClick (s : String) (res : Except Unit Bool) : HandlerResult :=
  if s = "tracking" || s = "paused" then
    match res with
    | .error _ => ⟨s, 0, 0, 1⟩
    | .ok _ => ⟨"idle", 0, 0, 1⟩
  else ⟨s, 0, 0, 0⟩

/-- One externally invoked session-control event on the accessible
interface, carrying the outcome of the controller call it triggers. -/
inductive UIEvent
| startClick (res : Except Unit Bool)
| pauseClick (res : Except Unit Bool)
| stopClick (res : Except Unit Bool)

/-- State reached after one event. -/
def step (s : String) : UIEvent → String
| .startClick r => (handleStartClick s r).state
| .pauseClick r => (handlePauseClick s r).state
| .stopClick r => (handleStopClick s r).state

/-- State reached from the initial state `'idle'`
(src/src/main.js:190) after a sequence of events. -/
def run (evs : List UIEvent) : String :=
  evs.foldl step "idle"

end Main

namespace Enhanced

/-- `EnhancedTrackingInterface.handlePlayPause` (src/unnamed/part_000:119-169).
A single toggle button: in `'idle'` it awaits `trackingController.start()`
and moves to `'tracking'` only when the returned success value is truthy;
in `'tracking'` / `'paused'` it calls `togglePause()` and flips the state
only on a truthy result.  The whole switch sits in a `try/catch`, so a
thrown error leaves the state unchanged. -/
def handlePlayPause (s : String) (res : Except Unit Bool) : HandlerResult :=
  if s = "idle" then
    match res with
    | .ok true => ⟨"tracking", 1, 0, 0⟩
    | .ok false => ⟨s, 1, 0, 0⟩
    | .error _ => ⟨s, 1, 0, 0⟩
  else if s = "tracking" then
    match res with
    | .ok true => ⟨"paused", 0, 1, 0⟩
    | .ok false => ⟨s, 0, 1, 0⟩
    | .error _ => ⟨s, 0, 1, 0⟩
  else if s = "paused" then
    match res with
    | .ok true => ⟨"tracking", 0, 1, 0⟩
    | .ok false => ⟨s, 0, 1, 0⟩
    | .error _ => ⟨s, 0, 1, 0⟩
  else ⟨s, 0, 0, 0⟩

/-- `EnhancedTrackingInterface.handleSave` (src/unnamed/part_000:171-199):
in `'tracking'` or `'paused'` it calls `trackingController.stop()` and moves
to `'idle'` only on a truthy result (a thrown error is caught); otherwise it
only logs "Cannot save" and does nothing. -/
def handleSave (s : String) (res : Except Unit Bool) : HandlerResult :=
  if s = "tracking" || s = "paused" then
    match res with
    | .ok true => ⟨"idle", 0, 0, 1⟩
    | .ok false => ⟨s, 0, 0, 1⟩
    | .error _ => ⟨s, 0, 0, 1⟩
  else ⟨s, 0, 0, 0⟩

/-- One externally invoked session-control event on the enhanced
interface. -/
inductive UIEvent
| playPause (res : Except Unit Bool)
| save (res : Except Unit Bool)

/-- State reached after one event. -/
def step (s : String) : UIEvent → String
| .playPause r => (handlePlayPause s r).state
| .save r => (handleSave s r).state

/-- State reached from the initial state `'idle'`
(src/unnamed/part_000:21) after a sequence of events. -/
def run (evs : List UIEvent) : String :=
  evs.foldl step "idle"

end Enhanced

/-- Outcome of one run of a restore flow: the value the surrounding promise
resolves with, how many times `state.restoreFromBackup` and
`state.clearRouteBackup` were invoked, and the interface state afterwards
(neither flow ever assigns `this.state`, so the field is threaded through). -/
structure DialogResult where
  resolved : Bool
  restoreCalls : Nat
  clearCalls : Nat
  state : String
  deriving Repr, DecidableEq

namespace Main

/-- `AccessibleTrackingInterface.showRestoreDialog` (src/src/main.js:508-592).
Inputs, in source order:
* `s` — the interface state `this.state` when the dialog runs;
* `backupValid` — the guard `backupData && typeof backupData === 'object'`;
* `prepThrows` — whether building the summary message throws (e.g. a
  non-numeric `totalDistance` making `.toFixed(2)` fail), landing in the
  outer `catch`, which calls `clearRouteBackup()` and resolves `false`;
* `shouldRestore` — the first `confirm` (Accept / Reject);
* `confirmDiscard` — the second `confirm` on the Reject branch;
* `restoreRes` — the outcome of `state.restoreFromBackup(backupData)`
  (a throw is caught by the outer `catch`: clear and resolve `false`). -/
def showRestoreDialog (s : String) (backupValid prepThrows shouldRestore confirmDiscard : Bool)
    (restoreRes : Except Unit Bool) : DialogResult :=
  if !backupValid then ⟨false, 0, 0, s⟩
  else if prepThrows then ⟨false, 0, 1, s⟩
  else if shouldRestore then
    match restoreRes with
    | .ok true => ⟨true, 1, 0, s⟩
    | .ok false => ⟨false, 1, 1, s⟩
    | .error _ => ⟨false, 1, 1, s⟩
  else if confirmDiscard then ⟨false, 0, 1, s⟩
  else
    match restoreRes with
    | .ok true => ⟨true, 1, 0, s⟩
    | .ok false => ⟨false, 1, 0, s⟩
    | .error _ => ⟨false, 1, 1, s⟩

/-- `AccessNatureTrackerV2.handleUnsavedRoute` (src/src/main.js:103-117):
queries `state.checkForUnsavedRoute()`; only when it yields a truthy
backup does it run `showRestoreDialog`; its own `try/catch` keeps any
error away from startup.  `backup = none` models "no backup found". -/
def handleUnsavedRoute (s : String) (backup : Option (Bool × Bool))
    (shouldRestore confirmDiscard : Bool) (restoreRes : Except Unit Bool) : DialogResult :=
  match backup with
  | none => ⟨false, 0, 0, s⟩
  | some (v, p) => showRestoreDialog s v p shouldRestore confirmDiscard restoreRes

end Main

namespace Enhanced

/-- `EnhancedTrackingInterface.checkForBackupRoute` (src/unnamed/part_000:474-515).
Inputs:
* `s` — the interface state (never assigned by this flow);
* `present` — whether `appState.checkForUnsavedRoute()` yielded a backup;
* `prepThrows` — whether building the summary message throws (the code
  dereferences `backup.routeData.filter` with no guard, so a backup without
  a `routeData` array throws here), landing in the outer `catch`, which
  merely logs — note: no `clearRouteBackup` on this path;
* `shouldRestore` — the `confirm` answer;
* `restoreRes` — the outcome of `appState.restoreFromBackup(backup)`. -/
def checkForBackupRoute (s : String) (present prepThrows shouldRestore : Bool)
    (restoreRes : Except Unit Bool) : DialogResult :=
  if !present then ⟨false, 0, 0, s⟩
  else if prepThrows then ⟨false, 0, 0, s⟩
  else if shouldRestore then
    match restoreRes with
    | .ok true => ⟨true, 1, 0, s⟩
    | .ok false => ⟨false, 1, 0, s⟩
    | .error _ => ⟨false, 1, 0, s⟩
  else ⟨false, 0, 1, s⟩

end Enhanced

/-- JavaScript `Math.round` on an exact rational input:
round half toward positive infinity. -/
def jsRound (x : ℚ) : ℤ := ⌊x + 1 / 2⌋

namespace Enhanced

/-- The heading normalisation done by both
`EnhancedTrackingInterface.startCompassListener` (src/unnamed/part_000:275-286)
and the spliced-in handler of `connectToCompassController`
(src/unnamed/part_000:399-420) on a device-orientation event with
`alpha ≠ null`:
`newHeading = Math.round(360 - alpha)`, then `+= 360` if negative,
then `-= 360` if `>= 360`. -/
def newHeadingOf (alpha : ℚ) : ℤ :=
  let h0 := jsRound (360 - alpha)
  let h1 := if h0 < 0 then h0 + 360 else h0
  if h1 ≥ 360 then h1 - 360 else h1

/-- The 16-entry direction table of
`EnhancedTrackingInterface.getCardinalDirection` (src/unnamed/part_000:322-326). -/
def directions : List String :=
  ["N", "NNE", "NE", "ENE", "E", "ESE", "SE", "SSE",
   "S", "SSW", "SW", "WSW", "W", "WNW", "NW", "NNW"]

/-- `EnhancedTrackingInterface.getCardinalDirection` (src/unnamed/part_000:322-326):
`directions[Math.round(degrees / 22.5) % 16]`.  JavaScript `%` truncates
(sign of the dividend) and indexing with a negative or out-of-range index
yields `undefined`, modelled as `none`. -/
def getCardinalDirection (degrees : ℚ) : Option String :=
  let index := Int.tmod (jsRound (degrees / 22.5)) 16
  if index < 0 then none else directions[index.toNat]?

/-- `totalSeconds` of `EnhancedTrackingInterface.formatTime`
(src/unnamed/part_000:546): `Math.floor(milliseconds / 1000)` on a
non-negative integral millisecond count. -/
def totalSecondsOf (milliseconds : ℕ) : ℕ := milliseconds / 1000

/-- `hours` of `formatTime` (src/unnamed/part_000:547). -/
def hoursOf (milliseconds : ℕ) : ℕ := totalSecondsOf milliseconds / 3600

/-- `minutes` of `formatTime` (src/unnamed/part_000:548). -/
def minutesOf (milliseconds : ℕ) : ℕ := totalSecondsOf milliseconds % 3600 / 60

/-- `seconds` of `formatTime` (src/unnamed/part_000:549). -/
def secondsOf (milliseconds : ℕ) : ℕ := totalSecondsOf milliseconds % 60

/-- `EnhancedTrackingInterface.formatTime` (src/unnamed/part_000:545-558). -/
def formatTime (milliseconds : ℕ) : String :=
  let hours := hoursOf milliseconds
  let minutes := minutesOf milliseconds
  let seconds := secondsOf milliseconds
  if hours > 0 then s!"{hours}h {minutes}m {seconds}s"
  else if minutes > 0 then s!"{minutes}m {seconds}s"
  else s!"{seconds}s"

end Enhanced

/-- `Modelled from the spec:` `TrackingController.stop` lives in
`src/core/tracking.js`, which is not part of this snapshot (only its
callers are).  Spec section 4.1: stop moves `tracking`/`paused` to `idle`
and "fails with `NothingToStop` if already idle"; section 7 lists the error
taxonomy. -/
inductive TrackError
| AlreadyActive
| NothingToStop
| InvalidPoint
| RestoreFailed
| PersistenceUnavailable
deriving Repr, DecidableEq

/-- `Modelled from the spec:` the stop operation of the missing
`TrackingController` (src/core/tracking.js): succeeds from `'tracking'` or
`'paused'`, fails with `NothingToStop` from `'idle'`. -/
def trackingStop (s : String) : Except TrackError String :=
  if s = "tracking" || s = "paused" then .ok "idle"
  else .error .NothingToStop

/-- The three session states of the spec (section 4.1) as the string values
both interfaces store in `this.state`. -/
def isSessionState (s : String) : Prop :=
  s = "idle" ∨ s = "tracking" ∨ s = "paused"

namespace Main

/-- The four legal transitions of spec section 4.1 on the accessible
interface: a start click in `'idle'` is `start`, in `'paused'` it is
`resume`; a pause click in `'tracking'` is `pause`; a stop click in
`'tracking'`/`'paused'` is `stop`. -/
def legalTransition (s : String) (e : UIEvent) (t : String) : Prop :=
  (s = "idle" ∧ (∃ r, e = .startClick r) ∧ t = "tracking") ∨
  (s = "tracking" ∧ (∃ r, e = .pauseClick r) ∧ t = "paused") ∨
  (s = "paused" ∧ (∃ r, e = .startClick r) ∧ t = "tracking") ∨
  ((s = "tracking" ∨ s = "paused") ∧ (∃ r, e = .stopClick r) ∧ t = "idle")

end Main

namespace Enhanced

/-- The four legal transitions of spec section 4.1 on the enhanced
interface: the play/pause toggle is `start` in `'idle'`, `pause` in
`'tracking'`, `resume` in `'paused'`; save is `stop`. -/
def legalTransition (s : String) (e : UIEvent) (t : String) : Prop :=
  (s = "idle" ∧ (∃ r, e = .playPause r) ∧ t = "tracking") ∨
  (s = "tracking" ∧ (∃ r, e = .playPause r) ∧ t = "paused") ∨
  (s = "paused" ∧ (∃ r, e = .playPause r) ∧ t = "tracking") ∨
  ((s = "tracking" ∨ s = "paused") ∧ (∃ r, e = .save r) ∧ t = "idle")

/-- The output format claimed for `formatTime`: `'Hh Mm Ss'` when
`hours > 0`, `'Mm Ss'` when only `minutes > 0`, else `'Ss'`.  Written from
the claim's words, to be compared with `formatTime` from the source. -/
def formatTimeSpec (hours minutes seconds : ℕ) : String :=
  if hours > 0 then s!"{hours}h {minutes}m {seconds}s"
  else if minutes > 0 then s!"{minutes}m {seconds}s"
  else s!"{seconds}s"

end Enhanced

section StateMachineLemmas

/-- Each accessible-interface event maps a session state to a session state. -/
theorem mainStep_mem (s : String) (e : Main.UIEvent) (h : isSessionState s) :
    isSessionState (Main.step s e) := by
  rcases h with h | h | h <;> subst h <;>
    cases e <;> rename_i r <;> cases r <;>
    simp [isSessionState, Main.step, Main.handleStartClick, Main.handlePauseClick,
      Main.handleStopClick]

/-- Folding accessible-interface events preserves the session-state set. -/
theorem mainFoldlStep_mem (evs : List Main.UIEvent) (s : String) (h : isSessionState s) :
    isSessionState (evs.foldl Main.step s) := by
  induction evs generalizing s with
  | nil => exact h
  | cons e evs ih => exact ih _ (mainStep_mem s e h)

/-- Any accessible-interface event that changes the state performs one of
the four legal transitions. -/
theorem mainStep_legal (s : String) (e : Main.UIEvent) (h : Main.step s e ≠ s) :
    Main.legalTransition s e (Main.step s e) := by
  cases e with
  | startClick r =>
    by_cases h1 : s = "idle"
    · subst h1
      cases r with
      | error u => simp [Main.step, Main.handleStartClick] at h
      | ok b =>
        refine Or.inl ⟨rfl, ⟨.ok b, rfl⟩, ?_⟩
        simp [Main.step, Main.handleStartClick]
    · by_cases h2 : s = "paused"
      · subst h2
        cases r with
        | error u => simp [Main.step, Main.handleStartClick] at h
        | ok b =>
          refine Or.inr (Or.inr (Or.inl ⟨rfl, ⟨.ok b, rfl⟩, ?_⟩))
          simp [Main.step, Main.handleStartClick]
      · exact absurd (by simp [Main.step, Main.handleStartClick, h1, h2]) h
  | pauseClick r =>
    by_cases h1 : s = "tracking"
    · subst h1
      cases r with
      | error u => simp [Main.step, Main.handlePauseClick] at h
      | ok b =>
        refine Or.inr (Or.inl ⟨rfl, ⟨.ok b, rfl⟩, ?_⟩)
        simp [Main.step, Main.handlePauseClick]
    · exact absurd (by simp [Main.step, Main.handlePauseClick, h1]) h
  | stopClick r =>
    by_cases h1 : s = "tracking"
    · subst h1
      cases r with
      | error u => simp [Main.step, Main.handleStopClick] at h
      | ok b =>
        refine Or.inr (Or.inr (Or.inr ⟨Or.inl rfl, ⟨.ok b, rfl⟩, ?_⟩))
        simp [Main.step, Main.handleStopClick]
    · by_cases h2 : s = "paused"
      · subst h2
        cases r with
        | error u => simp [Main.step, Main.handleStopClick] at h
        | ok b =>
          refine Or.inr (Or.inr (Or.inr ⟨Or.inr rfl, ⟨.ok b, rfl⟩, ?_⟩))
          simp [Main.step, Main.handleStopClick]
      · exact absurd (by simp [Main.step, Main.handleStopClick, h1, h2]) h

/-- Each enhanced-interface event maps a session state to a session state. -/
theorem enhancedStep_mem (s : String) (e : Enhanced.UIEvent) (h : isSessionState s) :
    isSessionState (Enhanced.step s e) := by
  rcases h with h | h | h <;> subst h <;>
    cases e <;> rename_i r <;>
    rcases r with u | b <;> try cases b
  all_goals
    simp [isSessionState, Enhanced.step, Enhanced.handlePlayPause, Enhanced.handleSave]

/-- Folding enhanced-interface events preserves the session-state set. -/
theorem enhancedFoldlStep_mem (evs : List Enhanced.UIEvent) (s : String)
    (h : isSessionState s) : isSessionState (evs.foldl Enhanced.step s) := by
  induction evs generalizing s with
  | nil => exact h
  | cons e evs ih => exact ih _ (enhancedStep_mem s e h)

/-- Any enhanced-interface event that changes the state performs one of the
four legal transitions. -/
theorem enhancedStep_legal (s : String) (e : Enhanced.UIEvent)
    (h : Enhanced.step s e ≠ s) : Enhanced.legalTransition s e (Enhanced.step s e) := by
  cases e with
  | playPause r =>
    by_cases h1 : s = "idle"
    · subst h1
      rcases r with u | b
      · simp [Enhanced.step, Enhanced.handlePlayPause] at h
      · cases b
        · simp [Enhanced.step, Enhanced.handlePlayPause] at h
        · refine Or.inl ⟨rfl, ⟨.ok true, rfl⟩, ?_⟩
          simp [Enhanced.step, Enhanced.handlePlayPause]
    · by_cases h2 : s = "tracking"
      · subst h2
        rcases r with u | b
        · simp [Enhanced.step, Enhanced.handlePlayPause] at h
        · cases b
          · simp [Enhanced.step, Enhanced.handlePlayPause] at h
          · refine Or.inr (Or.inl ⟨rfl, ⟨.ok true, rfl⟩, ?_⟩)
            simp [Enhanced.step, Enhanced.handlePlayPause]
      · by_cases h3 : s = "paused"
        · subst h3
          rcases r with u | b
          · simp [Enhanced.step, Enhanced.handlePlayPause] at h
          · cases b
            · simp [Enhanced.step, Enhanced.handlePlayPause] at h
            · refine Or.inr (Or.inr (Or.inl ⟨rfl, ⟨.ok true, rfl⟩, ?_⟩))
              simp [Enhanced.step, Enhanced.handlePlayPause]
        · exact absurd (by simp [Enhanced.step, Enhanced.handlePlayPause, h1, h2, h3]) h
  | save r =>
    by_cases h1 : s = "tracking"
    · subst h1
      rcases r with u | b
      · simp [Enhanced.step, Enhanced.handleSave] at h
      · cases b
        · simp [Enhanced.step, Enhanced.handleSave] at h
        · refine Or.inr (Or.inr (Or.inr ⟨Or.inl rfl, ⟨.ok true, rfl⟩, ?_⟩))
          simp [Enhanced.step, Enhanced.handleSave]
    · by_cases h2 : s = "paused"
      · subst h2
        rcases r with u | b
        · simp [Enhanced.step, Enhanced.handleSave] at h
        · cases b
          · simp [Enhanced.step, Enhanced.handleSave] at h
          · refine Or.inr (Or.inr (Or.inr ⟨Or.inr rfl, ⟨.ok true, rfl⟩, ?_⟩))
            simp [Enhanced.step, Enhanced.handleSave]
      · exact absurd (by simp [Enhanced.step, Enhanced.handleSave, h1, h2]) h

end StateMachineLemmas

section RestoreFlowLemmas

/-- `showRestoreDialog` never assigns `this.state`: the interface state
after the dialog is the state it had before, on every path. -/
theorem Main.showRestoreDialog_state (s : String) (v p sr cd : Bool)
    (rr : Except Unit Bool) : (Main.showRestoreDialog s v p sr cd rr).state = s := by
  cases v <;> cases p <;> cases sr <;> cases cd <;> rcases rr with u | b <;> try cases b
  all_goals rfl

/-- `checkForBackupRoute` never assigns `this.state` either. -/
theorem Enhanced.checkForBackupRoute_state (s : String) (present p sr : Bool)
    (rr : Except Unit Bool) : (Enhanced.checkForBackupRoute s present p sr rr).state = s := by
  cases present <;> cases p <;> cases sr <;> rcases rr with u | b <;> try cases b
  all_goals rfl

end RestoreFlowLemmas

/-- C1: from the initial state `'idle'`, every sequence of session-control
invocations (start/pause/stop clicks on the accessible interface,
play-pause/save on the enhanced one, with any controller outcomes) keeps the
interface state inside `{idle, tracking, paused}`, and every step that
changes the state is one of the four legal transitions
(idle-start→tracking, tracking-pause→paused, paused-resume→tracking,
tracking/paused-stop→idle); every other event in every other state leaves
the state unchanged. -/
theorem c1_session_state_machine :
    (∀ evs : List Main.UIEvent, isSessionState (Main.run evs)) ∧
    (∀ (s : String) (e : Main.UIEvent), Main.step s e ≠ s →
      Main.legalTransition s e (Main.step s e)) ∧
    (∀ evs : List Enhanced.UIEvent, isSessionState (Enhanced.run evs)) ∧
    (∀ (s : String) (e : Enhanced.UIEvent), Enhanced.step s e ≠ s →
      Enhanced.legalTransition s e (Enhanced.step s e)) :=
  ⟨fun evs => mainFoldlStep_mem evs "idle" (Or.inl rfl),
   mainStep_legal,
   fun evs => enhancedFoldlStep_mem evs "idle" (Or.inl rfl),
   enhancedStep_legal⟩

/-- Witness for C1 at concrete inputs: a start click then a pause click land
in a session state, and the two state changes taken are legal transitions. -/
theorem c1_session_state_machine_witness :
    isSessionState
      (Main.run [Main.UIEvent.startClick (.ok true), Main.UIEvent.pauseClick (.ok true)]) ∧
    Main.legalTransition "idle" (Main.UIEvent.startClick (.ok true))
      (Main.step "idle" (Main.UIEvent.startClick (.ok true))) ∧
    Enhanced.legalTransition "tracking" (Enhanced.UIEvent.save (.ok true))
      (Enhanced.step "tracking" (Enhanced.UIEvent.save (.ok true))) :=
  ⟨c1_session_state_machine.1 _,
   c1_session_state_machine.2.1 "idle" _ (by decide),
   c1_session_state_machine.2.2.2 "tracking" _ (by decide)⟩

/-- C2 counterexample: the Accept path of `showRestoreDialog` succeeds
(`restoreFromBackup` returns `true`, the dialog resolves `true`) from the
startup state `'idle'`, yet the session state machine is left in `'idle'`,
not in `'paused'` as the claim states. -/
theorem c2_counterexample :
    (Main.showRestoreDialog "idle" true false true true (.ok true)).resolved = true ∧
    (Main.showRestoreDialog "idle" true false true true (.ok true)).state = "idle" ∧
    (Main.showRestoreDialog "idle" true false true true (.ok true)).state ≠ "paused" := by
  refine ⟨rfl, rfl, ?_⟩
  decide

/-- C2 (amended): after a successful Accept of a backup restore, the session
state machine is unchanged by the restore — at startup it remains `'idle'`,
never `'tracking'` — and tracking begins only via an explicit start.  This
holds on both restore flows. -/
theorem c2_successful_restore_state :
    ∀ (p sr cd : Bool) (rr : Except Unit Bool),
      ((Main.showRestoreDialog "idle" true p sr cd rr).resolved = true →
        (Main.showRestoreDialog "idle" true p sr cd rr).state = "idle" ∧
        (Main.showRestoreDialog "idle" true p sr cd rr).state ≠ "tracking") ∧
      ((Enhanced.checkForBackupRoute "idle" true p sr rr).resolved = true →
        (Enhanced.checkForBackupRoute "idle" true p sr rr).state = "idle" ∧
        (Enhanced.checkForBackupRoute "idle" true p sr rr).state ≠ "tracking") := by
  intro p sr cd rr
  constructor
  · intro _
    rw [Main.showRestoreDialog_state]
    exact ⟨rfl, by decide⟩
  · intro _
    rw [Enhanced.checkForBackupRoute_state]
    exact ⟨rfl, by decide⟩

/-- Witness for C2 (amended) at a concrete successful Accept. -/
theorem c2_successful_restore_state_witness :
    (Main.showRestoreDialog "idle" true false true true (.ok true)).state = "idle" ∧
    (Main.showRestoreDialog "idle" true false true true (.ok true)).state ≠ "tracking" ∧
    (Enhanced.checkForBackupRoute "idle" true false true (.ok true)).state = "idle" := by
  have h := c2_successful_restore_state false true true (.ok true)
  exact ⟨(h.1 rfl).1, (h.1 rfl).2, (h.2 rfl).1⟩

/-- C3: evaluation at the failing input.  With the interface idle and
`tracking.start()` resolving to the failure value `false`,
`AccessibleTrackingInterface.handleStartClick` still sets the state to
`'tracking'` — contradicting the claim (and spec section 7) that a falsy
success indicator leaves the state in `'idle'` — while
`EnhancedTrackingInterface.handlePlayPause` checks the flag and stays
`'idle'`. -/
theorem c3_start_failure_evaluation :
    Main.handleStartClick "idle" (.ok false) = ⟨"tracking", 1, 0, 0⟩ ∧
    Enhanced.handlePlayPause "idle" (.ok false) = ⟨"idle", 1, 0, 0⟩ := by
  exact ⟨rfl, rfl⟩

/-- C4: in `showRestoreDialog`, choosing Reject and then declining the
discard confirmation invokes `restoreFromBackup` on the still-held snapshot
(exactly one restore call, and no `clearRouteBackup` before it), and when
that restore succeeds the dialog resolves `true`: Accept after a
presented-but-unfinalized Reject is tolerated. -/
theorem c4_accept_after_unfinalized_reject :
    ∀ (s : String) (rr : Except Unit Bool),
      (Main.showRestoreDialog s true false false false rr).restoreCalls = 1 ∧
      (rr = .ok true →
        Main.showRestoreDialog s true false false false rr = ⟨true, 1, 0, s⟩) := by
  intro s rr
  constructor
  · rcases rr with u | b <;> try cases b
    all_goals rfl
  · rintro rfl
    rfl

/-- Witness for C4 at a concrete input: Reject presented, discard declined,
restore succeeds. -/
theorem c4_accept_after_unfinalized_reject_witness :
    (Main.showRestoreDialog "idle" true false false false (.ok true)).restoreCalls = 1 ∧
    Main.showRestoreDialog "idle" true false false false (.ok true) = ⟨true, 1, 0, "idle"⟩ :=
  ⟨(c4_accept_after_unfinalized_reject "idle" (.ok true)).1,
   (c4_accept_after_unfinalized_reject "idle" (.ok true)).2 rfl⟩

/-- C5: rejecting the restore offer and confirming the discard clears the
backup slot (exactly one `clearRouteBackup` call) and never invokes
`restoreFromBackup`, on both flows (in the enhanced flow the single
`confirm` answer plays the role of reject-and-discard). -/
theorem c5_reject_discard_clears_without_restore :
    ∀ (s : String) (rr : Except Unit Bool),
      Main.showRestoreDialog s true false false true rr = ⟨false, 0, 1, s⟩ ∧
      Enhanced.checkForBackupRoute s true false false rr = ⟨false, 0, 1, s⟩ := by
  intro s rr
  exact ⟨rfl, rfl⟩

/-- C6: restoration failures are non-fatal to startup.  An invalid snapshot
(null or not an object) makes `showRestoreDialog` behave exactly like
`handleUnsavedRoute` finding no backup at all; a throw while reading the
snapshot's fields, and a throw from `restoreFromBackup`, are caught (the
embedding's branches follow the `catch` handlers) and the dialog resolves
`false` instead of propagating the exception. -/
theorem c6_restore_failures_nonfatal :
    ∀ (s : String) (p sr cd : Bool) (rr : Except Unit Bool),
      Main.showRestoreDialog s false p sr cd rr = Main.handleUnsavedRoute s none sr cd rr ∧
      (p = true → (Main.showRestoreDialog s true p sr cd rr).resolved = false) ∧
      (rr = .error () → (Main.showRestoreDialog s true p sr cd rr).resolved = false) := by
  intro s p sr cd rr
  refine ⟨rfl, ?_, ?_⟩
  · rintro rfl
    rfl
  · rintro rfl
    cases p <;> cases sr <;> cases cd <;> rfl

/-- Witness for C6 at concrete failure inputs. -/
theorem c6_restore_failures_nonfatal_witness :
    Main.showRestoreDialog "idle" false true true true (.error ()) =
      Main.handleUnsavedRoute "idle" none true true (.error ()) ∧
    (Main.showRestoreDialog "idle" true true true true (.error ())).resolved = false ∧
    (Main.showRestoreDialog "idle" true false true true (.error ())).resolved = false :=
  ⟨(c6_restore_failures_nonfatal "idle" true true true (.error ())).1,
   (c6_restore_failures_nonfatal "idle" true true true (.error ())).2.1 rfl,
   (c6_restore_failures_nonfatal "idle" false true true (.error ())).2.2 rfl⟩

/-- C7: stop while `'idle'` fails with `NothingToStop` on the (spec-modelled)
tracking controller, and on both interfaces the stop/save handler in
`'idle'` leaves the state `'idle'` and performs no finalization — the
controller's stop is not even invoked (zero calls of any kind). -/
theorem c7_stop_while_idle :
    trackingStop "idle" = .error TrackError.NothingToStop ∧
    (∀ rr : Except Unit Bool, Main.handleStopClick "idle" rr = ⟨"idle", 0, 0, 0⟩) ∧
    (∀ rr : Except Unit Bool, Enhanced.handleSave "idle" rr = ⟨"idle", 0, 0, 0⟩) :=
  ⟨rfl, fun _ => rfl, fun _ => rfl⟩

/-- C8: for every device-orientation `alpha` in `[0, 360]`, the heading the
compass handlers store (`Math.round(360 - alpha)`, bumped by plus or minus
360) is an integer in `[0, 360)`. -/
theorem c8_heading_in_range :
    ∀ alpha : ℚ, 0 ≤ alpha → alpha ≤ 360 →
      0 ≤ Enhanced.newHeadingOf alpha ∧ Enhanced.newHeadingOf alpha < 360 := by
  intro a ha0 ha1
  have hlo : (0 : ℤ) ≤ jsRound (360 - a) := by
    rw [jsRound, Int.le_floor]
    push_cast
    linarith
  have hhi : jsRound (360 - a) < 361 := by
    rw [jsRound, Int.floor_lt]
    push_cast
    linarith
  simp only [Enhanced.newHeadingOf]
  generalize jsRound (360 - a) = x at hlo hhi ⊢
  split_ifs <;> omega

/-- Witness for C8 at `alpha = 90`. -/
theorem c8_heading_in_range_witness :
    (0 : ℚ) ≤ 90 ∧ (90 : ℚ) ≤ 360 ∧
      0 ≤ Enhanced.newHeadingOf 90 ∧ Enhanced.newHeadingOf 90 < 360 :=
  ⟨by decide, by decide, c8_heading_in_range 90 (by decide) (by decide)⟩

/-- C9: for every degree value in `[0, 360]`, the index
`Math.round(degrees / 22.5) % 16` lies inside the 16-entry direction table,
so `getCardinalDirection` returns a direction string, never `undefined`. -/
theorem c9_cardinal_direction_defined :
    ∀ d : ℚ, 0 ≤ d → d ≤ 360 → (Enhanced.getCardinalDirection d).isSome = true := by
  intro d h0 h1
  have hidx : (0 : ℤ) ≤ jsRound (d / 22.5) := by
    rw [jsRound, Int.le_floor]
    push_cast
    have hq : (0 : ℚ) ≤ d / 22.5 := by positivity
    linarith
  have ht0 : (0 : ℤ) ≤ Int.tmod (jsRound (d / 22.5)) 16 := Int.tmod_nonneg 16 hidx
  have ht1 : Int.tmod (jsRound (d / 22.5)) 16 < 16 :=
    Int.tmod_lt_of_pos _ (by norm_num)
  simp only [Enhanced.getCardinalDirection]
  rw [if_neg (not_lt.mpr ht0)]
  have hlen : (Int.tmod (jsRound (d / 22.5)) 16).toNat < Enhanced.directions.length := by
    generalize Int.tmod (jsRound (d / 22.5)) 16 = t at ht0 ht1 ⊢
    simp only [Enhanced.directions, List.length]
    omega
  rw [List.getElem?_eq_getElem hlen]
  rfl

/-- Witness for C9 at `degrees = 90` (due east). -/
theorem c9_cardinal_direction_defined_witness :
    (0 : ℚ) ≤ 90 ∧ (90 : ℚ) ≤ 360 ∧ (Enhanced.getCardinalDirection 90).isSome = true :=
  ⟨by decide, by decide, c9_cardinal_direction_defined 90 (by decide) (by decide)⟩

/-- C10: for every non-negative (integral) millisecond count, `formatTime`
decomposes `floor(milliseconds / 1000)` into hours, minutes and seconds with
`minutes < 60`, `seconds < 60` and
`hours * 3600 + minutes * 60 + seconds = floor(milliseconds / 1000)`, and
renders them as `'Hh Mm Ss'` when hours are positive, `'Mm Ss'` when only
minutes are, and `'Ss'` otherwise. -/
theorem c10_formatTime_decomposition :
    ∀ ms : ℕ,
      Enhanced.minutesOf ms < 60 ∧ Enhanced.secondsOf ms < 60 ∧
      Enhanced.hoursOf ms * 3600 + Enhanced.minutesOf ms * 60 + Enhanced.secondsOf ms =
        Enhanced.totalSecondsOf ms ∧
      Enhanced.formatTime ms =
        Enhanced.formatTimeSpec (Enhanced.hoursOf ms) (Enhanced.minutesOf ms)
          (Enhanced.secondsOf ms) := by
  intro ms
  refine ⟨?_, ?_, ?_, rfl⟩
  · unfold Enhanced.minutesOf
    omega
  · unfold Enhanced.secondsOf
    omega
  · unfold Enhanced.hoursOf Enhanced.minutesOf Enhanced.secondsOf Enhanced.totalSecondsOf
    omega
